import Mathlib

/-!
Shallow embedding of the Windows service wrapper (src/main.rs).

The program registers a control handler with the service control manager
(SCM), reports StartPending, spawns a child process via cmd.exe, reports
Running, then polls in wait_for_stop_signal for either a "stop" message on
the internal channel or the natural exit of the child, and finally reports
Stopped.

The embedding models the environment (SCM call results, channel
observations, child state) explicitly and computes the trace of status
reports the program issues, plus the program's result.
-/

/-- The subset of SCM control request kinds relevant to the handler in
src/main.rs lines 182-188; other covers every remaining kind. -/
inductive ServiceControl where
  | stop
  | pause
  | cont
  | interrogate
  | shutdown
  | other (code : Nat)
deriving DecidableEq

/-- Acknowledgement codes the control handler can return to the SCM. -/
inductive ServiceControlHandlerResult where
  | noError
  | notImplemented
deriving DecidableEq

/-- Service states used in status reports (windows_service ServiceState). -/
inductive ServiceState where
  | startPending
  | running
  | stopPending
  | stopped
deriving DecidableEq

/-- The status tuple sent to the SCM by set_service_status. acceptsStop
models controls_accepted (the code only ever uses STOP or empty). -/
structure ServiceStatusReport where
  current_state : ServiceState
  acceptsStop : Bool
  checkpoint : Nat
  wait_hint : Nat
  process_id : Option Nat
deriving DecidableEq

/-- Error kinds run_service can surface (the Rust code uses boxed dynamic
errors; these name the failure sites). -/
inductive ServiceError where
  | registrationError
  | reportError
  | spawnError
deriving DecidableEq

/-- The control-event handler closure of src/main.rs lines 182-188: on a
Stop request it sends "stop" on the channel and returns NoError; on every
other request kind it returns NotImplemented without sending anything.
The second component is the list of messages enqueued by the call. -/
def event_handler (c : ServiceControl) : ServiceControlHandlerResult × List String :=
  match c with
  | ServiceControl.stop => (ServiceControlHandlerResult.noError, ["stop"])
  | _ => (ServiceControlHandlerResult.notImplemented, [])

/-- One iteration's observations in the polling loop: what
control_rx.try_recv would return (some message, or none) and whether
child.try_wait would report that the child has exited. -/
structure PollStep where
  recv : Option String
  childDone : Bool
deriving DecidableEq

/-- Outcome of the polling loop: the returned Bool (stop_requested) and
whether child.kill and child.wait were invoked on the stop path. -/
structure LoopOutcome where
  stopRequested : Bool
  killInvoked : Bool
  waitInvoked : Bool
deriving DecidableEq

/-- The polling loop of src/main.rs lines 248-265. Each iteration first
checks the channel for a "stop" message and, if present, kills and waits
on the child (both results discarded via let _ = ...) and returns true;
otherwise, if the child has exited naturally it returns false; otherwise
it sleeps and retries. killOk and waitOk are the results of child.kill
and child.wait, which the code discards. The schedule lists the
per-iteration observations; none means the schedule was exhausted with
the loop still running. -/
def wait_for_stop_signal (killOk waitOk : Bool) : List PollStep → Option LoopOutcome
  | [] => none
  | s :: rest =>
    if s.recv = some "stop" then
      some { stopRequested := true, killInvoked := true, waitInvoked := true }
    else if s.childDone then
      some { stopRequested := false, killInvoked := false, waitInvoked := false }
    else
      wait_for_stop_signal killOk waitOk rest

/-- The StartPending report of src/main.rs lines 196-204. -/
def startPendingReport (pid : Nat) : ServiceStatusReport :=
  { current_state := ServiceState.startPending, acceptsStop := true,
    checkpoint := 1, wait_hint := 10, process_id := some pid }

/-- The Running report of src/main.rs lines 214-222. -/
def runningReport (pid : Nat) : ServiceStatusReport :=
  { current_state := ServiceState.running, acceptsStop := true,
    checkpoint := 0, wait_hint := 5, process_id := some pid }

/-- The final Stopped report of src/main.rs lines 233-241: state Stopped,
controls_accepted empty, no process id. -/
def stoppedReport : ServiceStatusReport :=
  { current_state := ServiceState.stopped, acceptsStop := false,
    checkpoint := 0, wait_hint := 5, process_id := none }

/-- Environment of one run_service execution: whether each external call
succeeds, the polling-loop schedule, the discarded kill and wait results,
and the process id reported to the SCM. -/
structure RunEnv where
  registerOk : Bool
  reportStartOk : Bool
  spawnOk : Bool
  reportRunningOk : Bool
  reportStoppedOk : Bool
  sched : List PollStep
  killOk : Bool
  waitOk : Bool
  pid : Nat
deriving DecidableEq

/-- Observable outcome of a run_service execution: the status reports
issued (in order of the set_service_status calls), whether the child was
spawned, whether kill was invoked on it, the loop result (some b when the
loop resolved with stop_requested = b), and the function result (none when
the loop never resolves, so run_service never returns). -/
structure RunOut where
  reports : List ServiceStatusReport
  spawned : Bool
  killInvoked : Bool
  stopRequested : Option Bool
  result : Option (Except ServiceError Unit)

/-- run_service of src/main.rs lines 179-244. It creates the channel and
handler, registers with the SCM (propagating failure with no report sent),
reports StartPending, spawns the child (propagating failure immediately),
reports Running, runs wait_for_stop_signal, and finally reports Stopped
exactly once before returning. Each question-mark propagation in the Rust
code becomes an early return carrying the reports issued so far. -/
def run_service (service_name bat_path : String) (env : RunEnv) : RunOut :=
  if env.registerOk = false then
    { reports := [], spawned := false, killInvoked := false,
      stopRequested := none,
      result := some (Except.error ServiceError.registrationError) }
  else if env.reportStartOk = false then
    { reports := [startPendingReport env.pid], spawned := false,
      killInvoked := false, stopRequested := none,
      result := some (Except.error ServiceError.reportError) }
  else if env.spawnOk = false then
    { reports := [startPendingReport env.pid], spawned := false,
      killInvoked := false, stopRequested := none,
      result := some (Except.error ServiceError.spawnError) }
  else if env.reportRunningOk = false then
    { reports := [startPendingReport env.pid, runningReport env.pid],
      spawned := true, killInvoked := false, stopRequested := none,
      result := some (Except.error ServiceError.reportError) }
  else
    match wait_for_stop_signal env.killOk env.waitOk env.sched with
    | none =>
      { reports := [startPendingReport env.pid, runningReport env.pid],
        spawned := true, killInvoked := false, stopRequested := none,
        result := none }
    | some out =>
      { reports := [startPendingReport env.pid, runningReport env.pid,
                    stoppedReport],
        spawned := true, killInvoked := out.killInvoked,
        stopRequested := some out.stopRequested,
        result := some (if env.reportStoppedOk then Except.ok ()
                        else Except.error ServiceError.reportError) }

/-- CLI subcommands (src/main.rs lines 63-67). -/
inductive Commands where
  | install
  | uninstall
deriving DecidableEq

/-- Parsed command-line arguments (src/main.rs lines 50-61). -/
structure Cli where
  name : String
  bat : String
  command : Option Commands
deriving DecidableEq

/-- store_cli_object of src/main.rs lines 26-29: overwrites the global
CLI slot with the given configuration. The slot is passed explicitly. -/
def store_cli_object (cli : Cli) (_slot : Option Cli) : Option Cli :=
  some cli

/-- service_main of src/main.rs lines 135-151: reads the global CLI slot;
when it holds a configuration, calls run_service with that name and bat
path; when it holds none, logs an error and returns without doing
anything (result none, meaning run_service was never invoked). -/
def service_main (slot : Option Cli) (env : RunEnv) : Option RunOut :=
  match slot with
  | none => none
  | some cli => some (run_service cli.name cli.bat env)

/-! ## Helper lemmas -/

/-- The polling loop never reads the kill or wait results. -/
theorem wait_ignores_kill_result (k w k' w' : Bool) (sched : List PollStep) :
    wait_for_stop_signal k w sched = wait_for_stop_signal k' w' sched := by
  induction sched with
  | nil => rfl
  | cons s rest ih =>
    simp only [wait_for_stop_signal]
    split_ifs <;> simp [ih]

/-- If no step of the schedule carries a "stop" message and the child
never exits, the polling loop does not resolve. -/
theorem wait_quiet_none (k w : Bool) (sched : List PollStep)
    (hq : ∀ s ∈ sched, s.recv ≠ some "stop" ∧ s.childDone = false) :
    wait_for_stop_signal k w sched = none := by
  induction sched with
  | nil => rfl
  | cons s rest ih =>
    have h := hq s (List.mem_cons_self s rest)
    simp [wait_for_stop_signal, h.1, h.2]
    exact ih (fun t ht => hq t (List.mem_cons_of_mem s ht))

/-- If the child-exit observation appears before any "stop" message, the
loop resolves on the natural-exit path with no kill and no wait. -/
theorem wait_natural (k w : Bool) (pre post : List PollStep) (s : PollStep)
    (hc : s.childDone = true) (hs : s.recv ≠ some "stop")
    (hpre : ∀ t ∈ pre, t.recv ≠ some "stop") :
    wait_for_stop_signal k w (pre ++ s :: post) =
      some { stopRequested := false, killInvoked := false,
             waitInvoked := false } := by
  induction pre with
  | nil => simp [wait_for_stop_signal, hs, hc]
  | cons t rest ih =>
    have h1 := hpre t (List.mem_cons_self t rest)
    by_cases h2 : t.childDone
    · simp [wait_for_stop_signal, h1, h2]
    · simp only [List.cons_append, wait_for_stop_signal, if_neg h1,
        if_neg h2]
      exact ih (fun u hu => hpre u (List.mem_cons_of_mem t hu))

/-! ## Claim theorems -/

/-- Claim C1: in every loop iteration the channel is checked for a stop
message before the child exit is checked, so when both a stop message and
a natural child exit are pending at the start of the same iteration, the
loop takes the stop path: kill and wait are invoked on the child and the
loop returns true (operator-requested stop), not the natural-exit false. -/
theorem stop_precedence_over_child_exit (k w : Bool) (s : PollStep)
    (rest : List PollStep) (hstop : s.recv = some "stop")
    (hchild : s.childDone = true) :
    wait_for_stop_signal k w (s :: rest) =
      some { stopRequested := true, killInvoked := true,
             waitInvoked := true } := by
  simp [wait_for_stop_signal, hstop, hchild]

/-- Witness for C1 at a concrete step with both events pending. -/
theorem stop_precedence_over_child_exit_witness :
    wait_for_stop_signal true true
        [{ recv := some "stop", childDone := true }] =
      some { stopRequested := true, killInvoked := true,
             waitInvoked := true } :=
  stop_precedence_over_child_exit true true
    { recv := some "stop", childDone := true } [] rfl rfl

/-- Claim C5: for every schedule carrying no stop message in which the
child stays alive, the polling loop never resolves, and run_service never
issues a Stopped report; the loop only terminates on a stop message or a
child exit. -/
theorem no_stop_child_alive_never_stopped (n b : String) (env : RunEnv)
    (hq : ∀ s ∈ env.sched, s.recv ≠ some "stop" ∧ s.childDone = false) :
    wait_for_stop_signal env.killOk env.waitOk env.sched = none ∧
    ∀ r ∈ (run_service n b env).reports,
      r.current_state ≠ ServiceState.stopped := by
  have hw : wait_for_stop_signal env.killOk env.waitOk env.sched = none :=
    wait_quiet_none env.killOk env.waitOk env.sched hq
  refine ⟨hw, ?_⟩
  unfold run_service
  by_cases h1 : env.registerOk = false
  · simp [h1]
  · by_cases h2 : env.reportStartOk = false
    · simp [h1, h2, startPendingReport]
    · by_cases h3 : env.spawnOk = false
      · simp [h1, h2, h3, startPendingReport]
      · by_cases h4 : env.reportRunningOk = false
        · simp [h1, h2, h3, h4, startPendingReport, runningReport]
        · simp [h1, h2, h3, h4, hw, startPendingReport, runningReport]

/-- Witness for C5 at a concrete quiet schedule. -/
theorem no_stop_child_alive_never_stopped_witness :
    wait_for_stop_signal true true
        [{ recv := none, childDone := false },
         { recv := some "ping", childDone := false }] = none ∧
    ∀ r ∈ (run_service "TestSvc" "run.bat"
        { registerOk := true, reportStartOk := true, spawnOk := true,
          reportRunningOk := true, reportStoppedOk := true,
          sched := [{ recv := none, childDone := false },
                    { recv := some "ping", childDone := false }],
          killOk := true, waitOk := true, pid := 7 }).reports,
      r.current_state ≠ ServiceState.stopped :=
  no_stop_child_alive_never_stopped "TestSvc" "run.bat"
    { registerOk := true, reportStartOk := true, spawnOk := true,
      reportRunningOk := true, reportStoppedOk := true,
      sched := [{ recv := none, childDone := false },
                { recv := some "ping", childDone := false }],
      killOk := true, waitOk := true, pid := 7 }
    (by decide)

/-- Claim C6: when the child exit is observed before any stop message, the
loop resolves on the natural-exit path (wait_for_stop_signal returns
false), kill is never invoked, and run_service reaches the Stopped report. -/
theorem natural_exit_no_kill (n b : String) (env : RunEnv)
    (pre post : List PollStep) (s : PollStep)
    (hsched : env.sched = pre ++ s :: post)
    (hc : s.childDone = true) (hs : s.recv ≠ some "stop")
    (hpre : ∀ t ∈ pre, t.recv ≠ some "stop")
    (hreg : env.registerOk = true) (h1 : env.reportStartOk = true)
    (hsp : env.spawnOk = true) (h2 : env.reportRunningOk = true) :
    wait_for_stop_signal env.killOk env.waitOk env.sched =
      some { stopRequested := false, killInvoked := false,
             waitInvoked := false } ∧
    (run_service n b env).reports =
      [startPendingReport env.pid, runningReport env.pid, stoppedReport] ∧
    (run_service n b env).killInvoked = false ∧
    (run_service n b env).stopRequested = some false := by
  have hw : wait_for_stop_signal env.killOk env.waitOk env.sched =
      some { stopRequested := false, killInvoked := false,
             waitInvoked := false } := by
    rw [hsched]
    exact wait_natural env.killOk env.waitOk pre post s hc hs hpre
  refine ⟨hw, ?_, ?_, ?_⟩ <;> simp [run_service, hreg, h1, hsp, h2, hw]

/-- Witness for C6: the child exits at the second iteration with no stop
message anywhere before it. -/
theorem natural_exit_no_kill_witness :
    wait_for_stop_signal true true
        [{ recv := none, childDone := false },
         { recv := none, childDone := true }] =
      some { stopRequested := false, killInvoked := false,
             waitInvoked := false } ∧
    (run_service "TestSvc" "run.bat"
        { registerOk := true, reportStartOk := true, spawnOk := true,
          reportRunningOk := true, reportStoppedOk := true,
          sched := [{ recv := none, childDone := false },
                    { recv := none, childDone := true }],
          killOk := true, waitOk := true, pid := 7 }).reports =
      [startPendingReport 7, runningReport 7, stoppedReport] ∧
    (run_service "TestSvc" "run.bat"
        { registerOk := true, reportStartOk := true, spawnOk := true,
          reportRunningOk := true, reportStoppedOk := true,
          sched := [{ recv := none, childDone := false },
                    { recv := none, childDone := true }],
          killOk := true, waitOk := true, pid := 7 }).killInvoked = false ∧
    (run_service "TestSvc" "run.bat"
        { registerOk := true, reportStartOk := true, spawnOk := true,
          reportRunningOk := true, reportStoppedOk := true,
          sched := [{ recv := none, childDone := false },
                    { recv := none, childDone := true }],
          killOk := true, waitOk := true, pid := 7 }).stopRequested =
      some false :=
  natural_exit_no_kill "TestSvc" "run.bat"
    { registerOk := true, reportStartOk := true, spawnOk := true,
      reportRunningOk := true, reportStoppedOk := true,
      sched := [{ recv := none, childDone := false },
                { recv := none, childDone := true }],
      killOk := true, waitOk := true, pid := 7 }
    [{ recv := none, childDone := false }] []
    { recv := none, childDone := true }
    rfl rfl (by decide) (by decide) rfl rfl rfl rfl

/-- Claim C7: on every execution path of run_service the sequence of
states carried by the issued status reports is an initial segment of
StartPending, Running, Stopped — monotonic, no state re-entered, never
back to Running after Stopped. -/
theorem report_states_monotonic (n b : String) (env : RunEnv) :
    ∃ t, (run_service n b env).reports.map
        (fun r => r.current_state) ++ t =
      [ServiceState.startPending, ServiceState.running,
       ServiceState.stopped] := by
  unfold run_service
  by_cases h1 : env.registerOk = false
  · exact ⟨[ServiceState.startPending, ServiceState.running,
      ServiceState.stopped], by simp [h1]⟩
  · by_cases h2 : env.reportStartOk = false
    · exact ⟨[ServiceState.running, ServiceState.stopped],
        by simp [h1, h2, startPendingReport]⟩
    · by_cases h3 : env.spawnOk = false
      · exact ⟨[ServiceState.running, ServiceState.stopped],
          by simp [h1, h2, h3, startPendingReport]⟩
      · by_cases h4 : env.reportRunningOk = false
        · exact ⟨[ServiceState.stopped],
            by simp [h1, h2, h3, h4, startPendingReport, runningReport]⟩
        · cases hw : wait_for_stop_signal env.killOk env.waitOk env.sched
          with
          | none =>
            exact ⟨[ServiceState.stopped],
              by simp [h1, h2, h3, h4, hw, startPendingReport,
                runningReport]⟩
          | some out =>
            exact ⟨[],
              by simp [h1, h2, h3, h4, hw, startPendingReport,
                runningReport, stoppedReport]⟩

/-- Claim C8: if registration with the SCM fails, run_service returns the
registration error with no status report issued and no child spawned. -/
theorem registration_failure_aborts_early (n b : String) (env : RunEnv)
    (h : env.registerOk = false) :
    (run_service n b env).result =
      some (Except.error ServiceError.registrationError) ∧
    (run_service n b env).reports = [] ∧
    (run_service n b env).spawned = false := by
  refine ⟨?_, ?_, ?_⟩ <;> simp [run_service, h]

/-- Witness for C8 at a concrete environment whose registration fails. -/
theorem registration_failure_aborts_early_witness :
    (run_service "TestSvc" "run.bat"
        { registerOk := false, reportStartOk := true, spawnOk := true,
          reportRunningOk := true, reportStoppedOk := true, sched := [],
          killOk := true, waitOk := true, pid := 7 }).result =
      some (Except.error ServiceError.registrationError) ∧
    (run_service "TestSvc" "run.bat"
        { registerOk := false, reportStartOk := true, spawnOk := true,
          reportRunningOk := true, reportStoppedOk := true, sched := [],
          killOk := true, waitOk := true, pid := 7 }).reports = [] ∧
    (run_service "TestSvc" "run.bat"
        { registerOk := false, reportStartOk := true, spawnOk := true,
          reportRunningOk := true, reportStoppedOk := true, sched := [],
          killOk := true, waitOk := true, pid := 7 }).spawned = false :=
  registration_failure_aborts_early "TestSvc" "run.bat"
    { registerOk := false, reportStartOk := true, spawnOk := true,
      reportRunningOk := true, reportStoppedOk := true, sched := [],
      killOk := true, waitOk := true, pid := 7 } rfl

/-- Claim C4: whenever the reconciliation loop is entered (registration,
StartPending report, spawn and Running report all succeeded) and exits
(the loop resolves on either path), run_service issues exactly one Stopped
report — state Stopped, controls accepted empty — and it is the last
report issued before the function returns. -/
theorem stopped_report_exactly_once (n b : String) (env : RunEnv)
    (out : LoopOutcome)
    (hreg : env.registerOk = true) (h1 : env.reportStartOk = true)
    (hsp : env.spawnOk = true) (h2 : env.reportRunningOk = true)
    (hloop : wait_for_stop_signal env.killOk env.waitOk env.sched =
      some out) :
    (run_service n b env).reports =
      [startPendingReport env.pid, runningReport env.pid, stoppedReport] ∧
    ((run_service n b env).reports.filter
        (fun r => r.current_state == ServiceState.stopped)) =
      [stoppedReport] ∧
    stoppedReport.current_state = ServiceState.stopped ∧
    stoppedReport.acceptsStop = false ∧
    (run_service n b env).result.isSome = true := by
  refine ⟨?_, ?_, rfl, rfl, ?_⟩ <;>
    simp [run_service, hreg, h1, hsp, h2, hloop, startPendingReport,
      runningReport, stoppedReport]

/-- Witness for C4: a run whose loop resolves by a stop at iteration one. -/
theorem stopped_report_exactly_once_witness :
    (run_service "TestSvc" "run.bat"
        { registerOk := true, reportStartOk := true, spawnOk := true,
          reportRunningOk := true, reportStoppedOk := true,
          sched := [{ recv := some "stop", childDone := false }],
          killOk := true, waitOk := true, pid := 7 }).reports =
      [startPendingReport 7, runningReport 7, stoppedReport] ∧
    ((run_service "TestSvc" "run.bat"
        { registerOk := true, reportStartOk := true, spawnOk := true,
          reportRunningOk := true, reportStoppedOk := true,
          sched := [{ recv := some "stop", childDone := false }],
          killOk := true, waitOk := true, pid := 7 }).reports.filter
        (fun r => r.current_state == ServiceState.stopped)) =
      [stoppedReport] ∧
    stoppedReport.current_state = ServiceState.stopped ∧
    stoppedReport.acceptsStop = false ∧
    (run_service "TestSvc" "run.bat"
        { registerOk := true, reportStartOk := true, spawnOk := true,
          reportRunningOk := true, reportStoppedOk := true,
          sched := [{ recv := some "stop", childDone := false }],
          killOk := true, waitOk := true, pid := 7 }).result.isSome =
      true :=
  stopped_report_exactly_once "TestSvc" "run.bat"
    { registerOk := true, reportStartOk := true, spawnOk := true,
      reportRunningOk := true, reportStoppedOk := true,
      sched := [{ recv := some "stop", childDone := false }],
      killOk := true, waitOk := true, pid := 7 }
    { stopRequested := true, killInvoked := true, waitInvoked := true }
    rfl rfl rfl rfl (by decide)

/-- Claim C9: the results of child.kill and child.wait are discarded, so
no kill or wait failure can change the outcome of the run: run_service is
invariant under any change of the kill and wait results, and on the stop
path the loop still returns true and the Stopped report is still issued. -/
theorem kill_failure_does_not_fail_run (n b : String) (env : RunEnv)
    (k w : Bool) (s : PollStep) (rest : List PollStep)
    (hsched : env.sched = s :: rest) (hstop : s.recv = some "stop")
    (hreg : env.registerOk = true) (h1 : env.reportStartOk = true)
    (hsp : env.spawnOk = true) (h2 : env.reportRunningOk = true) :
    run_service n b { env with killOk := k, waitOk := w } =
      run_service n b env ∧
    wait_for_stop_signal k w env.sched =
      some { stopRequested := true, killInvoked := true,
             waitInvoked := true } ∧
    stoppedReport ∈ (run_service n b env).reports := by
  have hw : ∀ k' w' : Bool,
      wait_for_stop_signal k' w' env.sched =
        some { stopRequested := true, killInvoked := true,
               waitInvoked := true } := by
    intro k' w'
    rw [hsched]
    simp [wait_for_stop_signal, hstop]
  refine ⟨?_, hw k w, ?_⟩
  · simp [run_service, hreg, h1, hsp, h2, hw]
  · simp [run_service, hreg, h1, hsp, h2, hw]

/-- Witness for C9: the kill and wait results are both failures (false),
yet the run matches the all-success run and still reports Stopped. -/
theorem kill_failure_does_not_fail_run_witness :
    run_service "TestSvc" "run.bat"
        { registerOk := true, reportStartOk := true, spawnOk := true,
          reportRunningOk := true, reportStoppedOk := true,
          sched := [{ recv := some "stop", childDone := false }],
          killOk := false, waitOk := false, pid := 7 } =
      run_service "TestSvc" "run.bat"
        { registerOk := true, reportStartOk := true, spawnOk := true,
          reportRunningOk := true, reportStoppedOk := true,
          sched := [{ recv := some "stop", childDone := false }],
          killOk := true, waitOk := true, pid := 7 } ∧
    wait_for_stop_signal false false
        [{ recv := some "stop", childDone := false }] =
      some { stopRequested := true, killInvoked := true,
             waitInvoked := true } ∧
    stoppedReport ∈ (run_service "TestSvc" "run.bat"
        { registerOk := true, reportStartOk := true, spawnOk := true,
          reportRunningOk := true, reportStoppedOk := true,
          sched := [{ recv := some "stop", childDone := false }],
          killOk := true, waitOk := true, pid := 7 }).reports :=
  kill_failure_does_not_fail_run "TestSvc" "run.bat"
    { registerOk := true, reportStartOk := true, spawnOk := true,
      reportRunningOk := true, reportStoppedOk := true,
      sched := [{ recv := some "stop", childDone := false }],
      killOk := true, waitOk := true, pid := 7 }
    false false { recv := some "stop", childDone := false } []
    rfl rfl rfl rfl rfl rfl

/-- Counterexample for claim C2: a run whose registration and StartPending
report succeed but whose spawn fails returns the spawn error with no
Stopped report ever issued (the Rust code propagates the spawn failure
with the question-mark operator at src/main.rs line 210 before any further
set_service_status call). -/
theorem spawn_failure_no_stopped_report_cex :
    (RunEnv.mk true true false true true [] true true 7).registerOk =
      true ∧
    (run_service "TestSvc" "run.bat"
        (RunEnv.mk true true false true true [] true true 7)).result =
      some (Except.error ServiceError.spawnError) ∧
    ¬ ∃ r ∈ (run_service "TestSvc" "run.bat"
        (RunEnv.mk true true false true true [] true true 7)).reports,
      r.current_state = ServiceState.stopped := by
  refine ⟨rfl, rfl, ?_⟩
  simp [run_service, startPendingReport]

/-- Claim C2 as amended: when spawning the child fails after successful
registration and StartPending report, run_service returns the spawn error
immediately; the only report issued is the StartPending one and no Stopped
report is sent. -/
theorem spawn_failure_returns_without_stopped_report (n b : String)
    (env : RunEnv) (hreg : env.registerOk = true)
    (h1 : env.reportStartOk = true) (hsp : env.spawnOk = false) :
    (run_service n b env).result =
      some (Except.error ServiceError.spawnError) ∧
    (run_service n b env).reports = [startPendingReport env.pid] ∧
    ∀ r ∈ (run_service n b env).reports,
      r.current_state ≠ ServiceState.stopped := by
  refine ⟨?_, ?_, ?_⟩ <;> simp [run_service, hreg, h1, hsp,
    startPendingReport]

/-- Witness for the amended C2 at a concrete spawn-failing environment. -/
theorem spawn_failure_returns_without_stopped_report_witness :
    (run_service "TestSvc" "missing.bat"
        (RunEnv.mk true true false true true [] true true 9)).result =
      some (Except.error ServiceError.spawnError) ∧
    (run_service "TestSvc" "missing.bat"
        (RunEnv.mk true true false true true [] true true 9)).reports =
      [startPendingReport 9] ∧
    ∀ r ∈ (run_service "TestSvc" "missing.bat"
        (RunEnv.mk true true false true true [] true true 9)).reports,
      r.current_state ≠ ServiceState.stopped :=
  spawn_failure_returns_without_stopped_report "TestSvc" "missing.bat"
    (RunEnv.mk true true false true true [] true true 9) rfl rfl rfl

/-- Counterexample for claim C3: a Pause control request is answered with
NotImplemented and enqueues nothing (and likewise Continue), contradicting
the claim that Pause and Continue are enqueued and acknowledged with
no-error. -/
theorem pause_continue_not_enqueued_cex :
    event_handler ServiceControl.pause =
      (ServiceControlHandlerResult.notImplemented, []) ∧
    event_handler ServiceControl.cont =
      (ServiceControlHandlerResult.notImplemented, []) ∧
    (event_handler ServiceControl.pause).1 ≠
      ServiceControlHandlerResult.noError ∧
    (event_handler ServiceControl.pause).2 = [] := by
  refine ⟨rfl, rfl, ?_, rfl⟩
  decide

/-- Claim C3 as amended: only a Stop control request enqueues an event
(the "stop" message) and is acknowledged with no-error; every other
control kind — including Pause and Continue — is answered with
NotImplemented and enqueues nothing. -/
theorem event_handler_stop_only (c : ServiceControl) :
    (c = ServiceControl.stop →
      event_handler c = (ServiceControlHandlerResult.noError, ["stop"])) ∧
    (c ≠ ServiceControl.stop →
      event_handler c =
        (ServiceControlHandlerResult.notImplemented, [])) := by
  cases c <;> simp [event_handler]

/-- Witness for the amended C3: Stop enqueues and is accepted; Shutdown is
refused with nothing enqueued. -/
theorem event_handler_stop_only_witness :
    event_handler ServiceControl.stop =
      (ServiceControlHandlerResult.noError, ["stop"]) ∧
    event_handler ServiceControl.shutdown =
      (ServiceControlHandlerResult.notImplemented, []) :=
  ⟨(event_handler_stop_only ServiceControl.stop).1 rfl,
   (event_handler_stop_only ServiceControl.shutdown).2 (by decide)⟩

/-- Claim C10: when the global CLI slot holds no configuration,
service_main returns without invoking run_service — no registration, no
report, no spawn; and after store_cli_object has stored a configuration,
service_main runs run_service with exactly that stored name and bat
path. -/
theorem service_main_none_safe (env : RunEnv) (cli : Cli)
    (slot : Option Cli) :
    service_main none env = none ∧
    service_main (store_cli_object cli slot) env =
      some (run_service cli.name cli.bat env) := by
  exact ⟨rfl, rfl⟩
